import Mathlib

/-!
Shallow embedding of `custom_components/mobilealerts/sensorhistory.py`.

The module scrapes an HTML report from the MobileAlerts web site, locates a
data column by header name, strips a unit suffix from each decorated cell
string, and reduces the numeric series to a single aggregate value.

Numbers are modelled over `ℚ` (the Python code works with `float`/`int`;
the rational model captures the arithmetic exactly on the decimal literals
the claims use).  Strings are Lean `String`s.  The external collaborators
`extract_start_stop`, `extract_value_units` and Python `float()` parsing are
black boxes, passed as function parameters.  Fallible Python code (raised
exceptions) is modelled with `Except String`; Python `None` with `Option`.
-/

namespace MobileAlerts

/-! ### Constants from the source module and `homeassistant.const` -/

/-- `CONF_MAXIMUM` from `homeassistant.const`. -/
def CONF_MAXIMUM : String := "maximum"

/-- `CONF_MINIMUM` from `homeassistant.const`. -/
def CONF_MINIMUM : String := "minimum"

/-- `CONF_MEAN = "mean"` (sensorhistory.py line 23). -/
def CONF_MEAN : String := "mean"

/-- `CONF_DIFFERENCE = "difference"` (sensorhistory.py line 24). -/
def CONF_DIFFERENCE : String := "difference"

/-- `MODE_TYPES` (lines 58-61); first element is the default. -/
def MODE_TYPES : List String := ["historic", "current"]

/-- `DEVICE_CLASS` dict (lines 48-55), as an association list. -/
def DEVICE_CLASS : List (String × String) :=
  [("temperature", "Temperature"), ("wind_speed", "Wind speed"),
   ("humidity", "Humidity"), ("pressure", "Pressure"),
   ("rain", "Rain"), ("snow", "Snow")]

/-- `MIN_TIME_BETWEEN_UPDATES = timedelta(hours=1)` (line 46), in seconds. -/
def MIN_TIME_BETWEEN_UPDATES : ℚ := 3600

/-! ### Python numeric builtins over `ℚ` -/

/-- Python `int(x)`: truncation toward zero. -/
def pyInt (q : ℚ) : ℤ := if 0 ≤ q then ⌊q⌋ else ⌈q⌉

/-- Round to the nearest integer, ties to the even neighbour
(the tie-breaking rule of Python 3 `round`). -/
def roundHalfEven (q : ℚ) : ℤ :=
  let f := ⌊q⌋
  if q - f < 1/2 then f
  else if 1/2 < q - f then f + 1
  else if f % 2 = 0 then f else f + 1

/-- Python `round(x, 1)`: nearest multiple of 1/10, ties to even. -/
def pyRound1 (q : ℚ) : ℚ := (roundHalfEven (10 * q) : ℚ) / 10

/-- Python `max(values)`.  (Python raises on `[]`; every call site in the
source guards with `len(values) == 0` first, so the `[]` arm is unreachable.) -/
def pymax : List ℚ → ℚ
  | [] => 0
  | v :: vs => vs.foldl max v

/-- Python `min(values)`, same remark as `pymax`. -/
def pymin : List ℚ → ℚ
  | [] => 0
  | v :: vs => vs.foldl min v

/-! ### The aggregation step of `MobileAlertsData.get_reading` (lines 148-163) -/

/-- The `result = 0; if/elif` chain of `get_reading` (lines 148-158):
maximum, minimum, mean (`sum/len`), difference (`values[0] - values[-1]`).
An unrecognised method leaves the initial `result = 0`. -/
def aggregate (method : String) (values : List ℚ) : ℚ :=
  if method = CONF_MAXIMUM then pymax values
  else if method = CONF_MINIMUM then pymin values
  else if method = CONF_MEAN then values.sum / (values.length : ℚ)
  else if method = CONF_DIFFERENCE then values.headD 0 - values.getLastD 0
  else 0

/-- Lines 159-162: `if result > 100: result = int(result) else: result =
round(result, 1)`. -/
def postprocess (result : ℚ) : ℚ :=
  if 100 < result then (pyInt result : ℚ) else pyRound1 result

/-! ### Helper lemmas about the numeric builtins -/

lemma pyInt_of_nonneg {q : ℚ} (h : 0 ≤ q) : pyInt q = ⌊q⌋ := by
  simp [pyInt, h]

lemma roundHalfEven_dist (q : ℚ) : |q - roundHalfEven q| ≤ 1/2 := by
  have hf : (⌊q⌋ : ℚ) ≤ q := Int.floor_le q
  have hf' : q < ⌊q⌋ + 1 := Int.lt_floor_add_one q
  unfold roundHalfEven
  by_cases h1 : q - ⌊q⌋ < 1/2
  · simp only [h1, if_true]
    rw [abs_of_nonneg (by linarith)]
    linarith
  · by_cases h2 : (1:ℚ)/2 < q - ⌊q⌋
    · simp only [h1, h2, if_false, if_true]
      push_cast
      rw [abs_of_nonpos (by linarith)]
      linarith
    · have heq : q - ⌊q⌋ = 1/2 := le_antisymm (not_lt.mp h2) (not_lt.mp h1)
      by_cases h3 : (⌊q⌋ : ℤ) % 2 = 0
      · simp only [h1, h2, h3, if_false, if_true]
        rw [abs_of_nonneg (by linarith)]
        linarith
      · simp only [h1, h2, h3, if_false]
        push_cast
        rw [abs_of_nonpos (by linarith)]
        linarith

lemma pyRound1_dist (q : ℚ) : |q - pyRound1 q| ≤ 1/20 := by
  have h := roundHalfEven_dist (10 * q)
  unfold pyRound1
  rw [show q - (roundHalfEven (10*q) : ℚ)/10 = (10*q - (roundHalfEven (10*q) : ℚ))/10 by ring,
    abs_div]
  rw [abs_of_pos (by norm_num : (0:ℚ) < 10)]
  linarith

/-- `pymax` returns a member of the list that dominates every member. -/
lemma pymax_spec (values : List ℚ) (h : values ≠ []) :
    pymax values ∈ values ∧ ∀ v ∈ values, v ≤ pymax values := by
  match values with
  | v :: vs =>
    clear h
    induction vs generalizing v with
    | nil => simp [pymax]
    | cons w ws ih =>
      have h1 := ih (max v w)
      constructor
      · have hmem : max v w ∈ v :: w :: ws ∧ pymax (max v w :: ws) ∈ max v w :: ws := by
          constructor
          · rcases max_choice v w with h | h <;> simp [h]
          · exact h1.1
        have : pymax (v :: w :: ws) = pymax (max v w :: ws) := by simp [pymax]
        rw [this]
        rcases List.mem_cons.mp h1.1 with h | h
        · rw [h]; exact hmem.1
        · simp [List.mem_cons]; tauto
      · intro x hx
        have : pymax (v :: w :: ws) = pymax (max v w :: ws) := by simp [pymax]
        rw [this]
        rcases List.mem_cons.mp hx with rfl | hx'
        · exact le_trans (le_max_left x w) (h1.2 _ (by simp))
        · rcases List.mem_cons.mp hx' with rfl | hx''
          · exact le_trans (le_max_right v x) (h1.2 _ (by simp))
          · exact h1.2 _ (by simp [hx''])

/-- `pymin` returns a member of the list below every member. -/
lemma pymin_spec (values : List ℚ) (h : values ≠ []) :
    pymin values ∈ values ∧ ∀ v ∈ values, pymin values ≤ v := by
  match values with
  | v :: vs =>
    clear h
    induction vs generalizing v with
    | nil => simp [pymin]
    | cons w ws ih =>
      have h1 := ih (min v w)
      constructor
      · have hthis : pymin (v :: w :: ws) = pymin (min v w :: ws) := by simp [pymin]
        rw [hthis]
        rcases List.mem_cons.mp h1.1 with h | h
        · rw [h]
          rcases min_choice v w with h' | h' <;> simp [h']
        · simp [List.mem_cons]; tauto
      · intro x hx
        have hthis : pymin (v :: w :: ws) = pymin (min v w :: ws) := by simp [pymin]
        rw [hthis]
        rcases List.mem_cons.mp hx with rfl | hx'
        · exact le_trans (h1.2 _ (by simp)) (min_le_left x w)
        · rcases List.mem_cons.mp hx' with rfl | hx''
          · exact le_trans (h1.2 _ (by simp)) (min_le_right v x)
          · exact h1.2 _ (by simp [hx''])

/-! ### HTML table data model and the fetch layer -/

/-- The first `<table>` of the response: a `thead` header row (the `th`
texts) and a `tbody` of rows, each row the list of its `td` cell texts. -/
structure Table where
  header : List String
  body : List (List String)
deriving DecidableEq

/-- Outcome of `requests.get` in `get_results_table` (lines 195-202):
either one of the two caught exceptions, or a response carrying an HTTP
status code and the parsed list of `<table>` elements. -/
inductive FetchOutcome where
  | connectionFailure
  | timeout
  | response (status : ℕ) (tables : List Table)
deriving DecidableEq

/-- `MobileAlertsData.get_results_table` (lines 189-214) given the HTTP
outcome: caught connection/timeout exceptions log a warning and return
`None`; a status other than `requests.codes.ok` (200) raises; an empty
table list logs a warning and returns `None`; otherwise the first table. -/
def get_results_table (outcome : FetchOutcome) : Except String (Option Table) :=
  match outcome with
  | .connectionFailure => .ok none
  | .timeout => .ok none
  | .response status tables =>
    if status ≠ 200 then
      .error ("requests getting data: " ++ toString status)
    else
      match tables with
      | [] => .ok none
      | t :: _ => .ok (some t)

/-! ### Column locator: `MobileAlertsData.get_position` (lines 217-230) -/

/-- Python `list.index`: index of the first exact match, if any. -/
def list_index (xs : List String) (x : String) : Option ℕ :=
  match xs with
  | [] => none
  | y :: ys => if y = x then some 0 else (list_index ys x).map (· + 1)

/-- Python `", ".join`, used to render a list the way `str(list)` does. -/
def join_comma : List String → String
  | [] => ""
  | [s] => s
  | s :: rest@(_ :: _) => s ++ ", " ++ join_comma rest

/-- Python `str(columns)` for a list of strings: `['a', 'b']`. -/
def pyStrList (xs : List String) : String :=
  "[" ++ join_comma (xs.map (fun s => "\x27" ++ s ++ "\x27")) ++ "]"

/-- `get_position`: `columns.index(column_name)`, and on failure the raised
`Exception("Column {0} not found in sensor data {1}".format(...))`. -/
def get_position (headers : List String) (column_name : String) : Except String ℕ :=
  match list_index headers column_name with
  | some i => .ok i
  | none => .error ("Column " ++ column_name ++ " not found in sensor data " ++
      pyStrList headers)

/-! ### Row value extractor: `MobileAlertsData.get_measurements` (lines 233-261) -/

/-- Python `s[:-n]`.  For `n = 0` the slice `s[:-0]` is `s[:0] = ""`;
for `n > 0` it keeps all but the last `n` characters (empty when
`n ≥ len(s)`). -/
def pySliceToNeg (s : String) (n : ℕ) : String :=
  if n = 0 then "" else String.mk (s.data.take (s.data.length - n))

/-- `get_measurements` with `is_numeric=True` (the only call in the module).
`ess` models the black-box collaborator `extract_start_stop` (trailing-span
length and unit-from-end), `evu` models `extract_value_units` (value and
unit), `pyfloat` models Python `float()` (`none` = raised `ValueError`).
A missing cell (`find_all('td')[col]` out of range) is a raised
`IndexError`.  Empty table body yields `([], "")`. -/
def get_measurements (ess : String → ℕ × String) (evu : String → String × String)
    (pyfloat : String → Option ℚ) (tbl : Table) (column_name : String) :
    Except String (List ℚ × String) :=
  match get_position tbl.header column_name with
  | .error e => .error e
  | .ok col =>
    match tbl.body.mapM (fun row => row.get? col) with
    | none => .error "IndexError: list index out of range"
    | some [] => .ok ([], "")
    | some (c0 :: rest) =>
      let reading_from_end := (ess c0).1
      let unit := (evu c0).2
      match (c0 :: rest).mapM (fun s => pyfloat (pySliceToNeg s reading_from_end)) with
      | none => .error "ValueError: could not convert string to float"
      | some vals => .ok (vals, unit)

/-! ### `MobileAlertsData.get_reading` (lines 136-163) -/

/-- `get_reading`: fetch the table (given the HTTP outcome), look the
device class up in `DEVICE_CLASS` (a `KeyError` if absent), extract the
column, and aggregate.  `.ok (none, "")` is Python `(None, "")` (no table);
`.ok (some 0, "")` is the `(0, "")` returned for an empty column. -/
def get_reading (ess : String → ℕ × String) (evu : String → String × String)
    (pyfloat : String → Option ℚ) (device_class method : String)
    (outcome : FetchOutcome) : Except String (Option ℚ × String) :=
  match get_results_table outcome with
  | .error e => .error e
  | .ok none => .ok (none, "")
  | .ok (some tbl) =>
    match DEVICE_CLASS.lookup device_class with
    | none => .error ("KeyError: " ++ device_class)
    | some column_name =>
      match get_measurements ess evu pyfloat tbl column_name with
      | .error e => .error e
      | .ok (values, unit) =>
        if values = [] then .ok (some 0, "")
        else .ok (some (postprocess (aggregate method values)), unit)

/-! ### Cached fetcher state and `MobileAlertsData.update` (lines 123-133) -/

/-- The mutable fields of `MobileAlertsData`: `self.data` and `self.unit`
(both initialised to `None`). -/
structure MAState where
  data : Option ℚ
  unit : Option String
deriving DecidableEq

/-- The body of `MobileAlertsData.update` (the code under the `@Throttle`
decorator): if `get_reading` returns `None` observations, log a warning and
leave the cached state unchanged; otherwise overwrite `self.data` and
`self.unit`.  A raised exception propagates. -/
def update_body (st : MAState) (reading : Except String (Option ℚ × String)) :
    Except String MAState :=
  match reading with
  | .error e => .error e
  | .ok (none, _) => .ok st
  | .ok (some v, u) => .ok ⟨some v, some u⟩

/-- One full (unthrottled) update cycle of the fetcher, from the HTTP
outcome. -/
def ma_update (ess : String → ℕ × String) (evu : String → String × String)
    (pyfloat : String → Option ℚ) (device_class method : String)
    (st : MAState) (outcome : FetchOutcome) : Except String MAState :=
  update_body st (get_reading ess evu pyfloat device_class method outcome)

/-! ### Throttle (the `@Throttle(MIN_TIME_BETWEEN_UPDATES)` decorator) -/

/-- Modelled from the spec: the `Throttle` wrapper itself lives in
`homeassistant.util`, outside this repository.  Per the spec it is "a
simple skip-if-called-again-within-the-window guard" holding a
per-instance cooldown timestamp: the wrapped body runs when no previous
run is recorded or when at least `min_time` has elapsed since the last
run, and is skipped (no network request) otherwise.  Returns (body ran?,
new recorded timestamp).  Times are in seconds. -/
def throttle_step (min_time : ℚ) (last : Option ℚ) (t : ℚ) : Bool × Option ℚ :=
  match last with
  | none => (true, some t)
  | some l => if t - l < min_time then (false, some l) else (true, some t)

/-! ### URL builder: `MobileAlertsData.get_device_history_url` (lines 166-186) -/

/-- `fromepoch`: `int((now - timedelta(seconds=duration*60*60)).timestamp())`.
`now` is the reference time as epoch seconds (a rational, since the Python
timestamp is fractional); `int()` truncates toward zero. -/
def fromepoch (now : ℚ) (duration : ℕ) : ℤ :=
  pyInt (now - (duration * 60 * 60 : ℕ))

/-- `toepoch`: `int(now.timestamp())`. -/
def toepoch (now : ℚ) : ℤ := pyInt now

/-- `get_device_history_url`: the base URL plus the `'&'.join`-ed params in
dict insertion order (vendorid, appbundle, deviceid, fromepoch, toepoch). -/
def get_device_history_url (device_id : String) (duration : ℕ) (now : ℚ) : String :=
  "https://measurements.mobile-alerts.eu/Home/MeasurementDetails" ++ "?" ++
    "vendorid=bb8e868c-e5fd-4130-8d72-b08d1013c98e" ++ "&" ++
    "appbundle=eu.mobile_alerts.mobilealerts" ++ "&" ++
    "deviceid=" ++ device_id ++ "&" ++
    "fromepoch=" ++ toString (fromepoch now duration) ++ "&" ++
    "toepoch=" ++ toString (toepoch now)

/-! ### Platform setup: `async_setup_platform` (lines 84-107) -/

/-- The configuration keys the setup function reads, after validation by
`PLATFORM_SCHEMA` (lines 70-81).  `mode` is accepted by the schema
(`vol.In(MODE_TYPES)`, default `"historic"`) and carried here so that its
(non-)influence can be stated. -/
structure Config where
  name : String
  device_class : Option String
  device_id : String
  mode : String
  devices : List String
  method : Option String
  duration : ℕ
  weather : Option String
deriving DecidableEq

/-- What `async_add_entities` receives: the constructor arguments of each
`MobileAlertsWeather` entity plus the update-before-add flag. -/
inductive EntityInit where
  | historic (name : String) (device_id : String) (device_class : Option String)
      (method : Option String) (duration : ℕ) (update_before_add : Bool)
  | current (name : String) (device_class : String) (weather : String)
      (update_before_add : Bool)
deriving DecidableEq

/-- `async_setup_platform`: branches on `device_id != ""` alone.  Historic:
one entity wrapping a `MobileAlertsData(device_id, device_class, method,
duration)`, update-before-add `True`.  Current: raises when the configured
weather entity is absent from `hass.states` (Python `config.get` yields
`None` when `weather` is unset and `hass.states.get(None)` is `None`, so
that also raises); otherwise one current-mode entity per device class in
`devices`, named `name.lower() + "_" + device_class`, flag `False`.
`states` models the read-only `hass.states` lookup. -/
def async_setup_platform (states : String → Option Unit) (config : Config) :
    Except String (List EntityInit) :=
  if config.device_id ≠ "" then
    .ok [.historic config.name config.device_id config.device_class
          config.method config.duration true]
  else
    match config.weather with
    | none => .error "weather Entity None not found"
    | some w =>
      match states w with
      | none => .error ("weather Entity " ++ w ++ " not found")
      | some _ =>
        .ok (config.devices.map (fun dc =>
          .current (config.name.toLower ++ "_" ++ dc) dc w false))

/-! ### Claims C1 and C2: the aggregation step -/

/-- C1 counterexample.  The claim asserts the truncate-vs-round choice is
made on the magnitude of the result, "for negative results as well".  The
code (line 159) tests `result > 100` signed, so an aggregation result of
-150.456 (reachable, e.g. difference over `[0.0, 150.456]`) has magnitude
above 100 yet is *rounded* to -150.5, not truncated to -150. -/
theorem C1_counterexample :
    aggregate CONF_DIFFERENCE [0, 150456/1000] = -(150456/1000) ∧
    100 < |(-(150456/1000) : ℚ)| ∧
    postprocess (-(150456/1000)) = -(1505/10) ∧
    (pyInt (-(150456/1000)) : ℚ) = -150 ∧
    (-(1505/10) : ℚ) ≠ -150 := by
  refine ⟨?_, by norm_num [abs_of_nonpos], ?_, ?_, by norm_num⟩
  · simp [aggregate, CONF_DIFFERENCE, CONF_MAXIMUM, CONF_MINIMUM, CONF_MEAN]
  · have h100 : ¬ (100 < (-(150456/1000) : ℚ)) := by norm_num
    have hfl : ⌊(10 * (-(150456/1000)) : ℚ)⌋ = -1505 := by
      rw [Int.floor_eq_iff]
      norm_num
    simp only [postprocess, h100, if_false, pyRound1, roundHalfEven, hfl]
    norm_num
  · have : ¬ ((0:ℚ) ≤ -(150456/1000)) := by norm_num
    simp only [pyInt, this, if_false]
    rw [show ⌈(-(150456/1000) : ℚ)⌉ = -150 by
      rw [Int.ceil_eq_iff]; norm_num]
    norm_num

/-- C1 (amended): the truncate-vs-round choice is made on the signed value,
not the magnitude: if the result exceeds 100 the returned value is the
result truncated to an integer (its floor, the result being positive);
otherwise — including every negative result — it is the result rounded to
one decimal place (a multiple of 1/10 within 1/20 of the result). -/
theorem C1_rounding (r : ℚ) :
    (100 < r → postprocess r = ((⌊r⌋ : ℤ) : ℚ)) ∧
    (r ≤ 100 → ∃ k : ℤ, postprocess r = (k : ℚ) / 10 ∧ |r - postprocess r| ≤ 1/20) := by
  constructor
  · intro h
    have h0 : (0:ℚ) ≤ r := le_trans (by norm_num) h.le
    simp [postprocess, h, pyInt_of_nonneg h0]
  · intro h
    have h' : ¬ (100 < r) := not_lt.mpr h
    refine ⟨roundHalfEven (10 * r), ?_, ?_⟩
    · simp [postprocess, h', pyRound1]
    · simp only [postprocess, h', if_false]
      exact pyRound1_dist r

/-- C1 witness: 150.456 truncates to its floor 150; 42.345 rounds to a
tenth within 1/20. -/
theorem C1_rounding_witness :
    postprocess (150456/1000) = ((⌊(150456/1000 : ℚ)⌋ : ℤ) : ℚ) ∧
    (∃ k : ℤ, postprocess (42345/1000) = (k : ℚ) / 10 ∧
      |(42345/1000 : ℚ) - postprocess (42345/1000)| ≤ 1/20) :=
  ⟨(C1_rounding (150456/1000)).1 (by norm_num),
   (C1_rounding (42345/1000)).2 (by norm_num)⟩

/-- C2 counterexample.  The claim gives difference = 20.0 for
values = [10.0, 20.0, 30.0]; the code computes `values[0] - values[-1]`
= 10.0 - 30.0 = -20.0. -/
theorem C2_counterexample :
    aggregate CONF_DIFFERENCE [10, 20, 30] = -20 ∧ (-20 : ℚ) ≠ 20 := by
  constructor
  · simp [aggregate, CONF_DIFFERENCE, CONF_MAXIMUM, CONF_MINIMUM, CONF_MEAN]
    norm_num
  · norm_num

/-- C2 (amended): for every non-empty sequence, maximum is the max of the
sequence (a member dominating all members), minimum is the min, mean is
`sum / length`, and difference is `values[0] - values[-1]` (newest minus
oldest); for values = [10.0, 20.0, 30.0] this gives max = 30.0,
min = 10.0, mean = 20.0 and difference = -20.0. -/
theorem C2_aggregator (v : ℚ) (vs : List ℚ) :
    (aggregate CONF_MAXIMUM (v :: vs) ∈ v :: vs ∧
      ∀ x ∈ v :: vs, x ≤ aggregate CONF_MAXIMUM (v :: vs)) ∧
    (aggregate CONF_MINIMUM (v :: vs) ∈ v :: vs ∧
      ∀ x ∈ v :: vs, aggregate CONF_MINIMUM (v :: vs) ≤ x) ∧
    aggregate CONF_MEAN (v :: vs) = (v :: vs).sum / ((v :: vs).length : ℚ) ∧
    aggregate CONF_DIFFERENCE (v :: vs) =
      v - (v :: vs).getLast (List.cons_ne_nil v vs) := by
  refine ⟨?_, ?_, ?_, ?_⟩
  · have h := pymax_spec (v :: vs) (List.cons_ne_nil v vs)
    simpa [aggregate, CONF_MAXIMUM] using h
  · have h := pymin_spec (v :: vs) (List.cons_ne_nil v vs)
    simpa [aggregate, CONF_MINIMUM, CONF_MAXIMUM] using h
  · simp [aggregate, CONF_MEAN, CONF_MAXIMUM, CONF_MINIMUM]
  · have hlast : (v :: vs).getLast?.getD 0 = (v :: vs).getLast (List.cons_ne_nil v vs) := by
      rw [List.getLast?_eq_getLast_of_ne_nil (List.cons_ne_nil v vs)]
      rfl
    simp [aggregate, CONF_DIFFERENCE, CONF_MAXIMUM, CONF_MINIMUM, CONF_MEAN, hlast]

/-! ### Lemmas about `list_index` (Python `list.index`) -/

lemma list_index_eq_none_iff (xs : List String) (x : String) :
    list_index xs x = none ↔ x ∉ xs := by
  induction xs with
  | nil => simp [list_index]
  | cons y ys ih =>
    show (if y = x then some 0 else (list_index ys x).map (· + 1)) = none ↔ _
    by_cases h : y = x
    · subst h
      simp
    · rw [if_neg h, Option.map_eq_none', ih]
      simp only [List.mem_cons, not_or]
      exact ⟨fun hn => ⟨fun he => h he.symm, hn⟩, fun hn => hn.2⟩

lemma list_index_spec (xs : List String) (x : String) (i : ℕ)
    (h : list_index xs x = some i) :
    xs.get? i = some x ∧ ∀ j, j < i → xs.get? j ≠ some x := by
  induction xs generalizing i with
  | nil => simp [list_index] at h
  | cons y ys ih =>
    by_cases hy : y = x
    · simp [list_index, hy] at h
      subst h
      simp [hy]
    · simp [list_index, hy] at h
      obtain ⟨i', hi', rfl⟩ := h
      obtain ⟨h1, h2⟩ := ih i' hi'
      refine ⟨h1, ?_⟩
      intro j hj
      cases j with
      | zero => simpa using hy
      | succ j' =>
        have : j' < i' := Nat.lt_of_succ_lt_succ hj
        simpa using h2 j' this

lemma list_index_of_mem {xs : List String} {x : String} (h : x ∈ xs) :
    ∃ i, list_index xs x = some i := by
  cases hli : list_index xs x with
  | none => exact absurd h ((list_index_eq_none_iff xs x).mp hli)
  | some i => exact ⟨i, rfl⟩

/-- Shared helper: a present table whose body is empty, with the device
class's column present in the header, yields the `(0, "")` sentinel. -/
lemma get_reading_empty_body (ess : String → ℕ × String)
    (evu : String → String × String) (pyfloat : String → Option ℚ)
    (dc method cname : String) (tbl : Table)
    (h1 : DEVICE_CLASS.lookup dc = some cname) (h2 : cname ∈ tbl.header)
    (h3 : tbl.body = []) :
    get_reading ess evu pyfloat dc method (.response 200 [tbl]) = .ok (some 0, "") := by
  obtain ⟨i, hi⟩ := list_index_of_mem h2
  simp [get_reading, get_results_table, h1, get_measurements, get_position, hi, h3]
  rfl

/-! ### Claim C3: soft vs fatal fetch outcomes -/

/-- C3: a caught connection or timeout failure returns the soft no-data
sentinel (`None`) and never raises, while a response with a non-2xx status
raises; a non-200 status never yields the soft no-data result. -/
theorem C3_fetch_error_taxonomy (status : ℕ) (tables : List Table) :
    get_results_table .connectionFailure = .ok none ∧
    get_results_table .timeout = .ok none ∧
    (¬ (200 ≤ status ∧ status < 300) →
      ∃ e, get_results_table (.response status tables) = .error e) ∧
    (status ≠ 200 → get_results_table (.response status tables) ≠ .ok none) := by
  refine ⟨rfl, rfl, ?_, ?_⟩
  · intro h
    have hne : status ≠ 200 := by omega
    exact ⟨"requests getting data: " ++ toString status, by simp [get_results_table, hne]⟩
  · intro hne
    simp [get_results_table, hne]

/-- C3 witness: status 404 with no tables raises and is not the soft
no-data result. -/
theorem C3_fetch_error_taxonomy_witness :
    get_results_table .connectionFailure = .ok none ∧
    get_results_table .timeout = .ok none ∧
    (¬ (200 ≤ 404 ∧ 404 < 300) →
      ∃ e, get_results_table (.response 404 []) = .error e) ∧
    (404 ≠ 200 → get_results_table (.response 404 []) ≠ .ok none) :=
  C3_fetch_error_taxonomy 404 []

/-! ### Claim C4: what a soft outcome does to the cached state -/

/-- C4 counterexample.  The claim asserts the cached `(data, unit)` pair is
left unchanged on *every* soft outcome, including an empty column.  But
`get_reading` returns `(0, "")` for an empty column (line 146), and
`update` only skips the write when the observation is `None` (line 128):
the cache `(5, "X")` is overwritten with `(0, "")`. -/
theorem C4_counterexample :
    ma_update (fun _ => (2, "C")) (fun _ => ("", "C")) (fun _ => none)
      "temperature" "maximum" ⟨some 5, some "X"⟩
      (.response 200 [⟨["Temperature"], []⟩]) = .ok ⟨some 0, some ""⟩ ∧
    (⟨some 0, some ""⟩ : MAState) ≠ ⟨some 5, some "X"⟩ := by
  constructor
  · rfl
  · decide

/-- C4 (amended): a connection/timeout failure or an empty table (no
`<table>` in the response) leaves the cached state unchanged, but an empty
column *overwrites* the cache with the sentinel `0` and the empty unit. -/
theorem C4_soft_state (ess : String → ℕ × String) (evu : String → String × String)
    (pyfloat : String → Option ℚ) (dc method cname : String) (st : MAState)
    (tbl : Table) (h1 : DEVICE_CLASS.lookup dc = some cname)
    (h2 : cname ∈ tbl.header) (h3 : tbl.body = []) :
    ma_update ess evu pyfloat dc method st .connectionFailure = .ok st ∧
    ma_update ess evu pyfloat dc method st .timeout = .ok st ∧
    ma_update ess evu pyfloat dc method st (.response 200 []) = .ok st ∧
    ma_update ess evu pyfloat dc method st (.response 200 [tbl]) =
      .ok ⟨some 0, some ""⟩ := by
  refine ⟨rfl, rfl, rfl, ?_⟩
  rw [ma_update, get_reading_empty_body ess evu pyfloat dc method cname tbl h1 h2 h3]
  rfl

/-- C4 witness at a concrete configuration and table. -/
theorem C4_soft_state_witness :
    ma_update (fun _ => (2, "C")) (fun _ => ("", "C")) (fun _ => none)
      "temperature" "maximum" ⟨some 5, some "X"⟩ .connectionFailure =
      .ok ⟨some 5, some "X"⟩ ∧
    ma_update (fun _ => (2, "C")) (fun _ => ("", "C")) (fun _ => none)
      "temperature" "maximum" ⟨some 5, some "X"⟩ .timeout =
      .ok ⟨some 5, some "X"⟩ ∧
    ma_update (fun _ => (2, "C")) (fun _ => ("", "C")) (fun _ => none)
      "temperature" "maximum" ⟨some 5, some "X"⟩ (.response 200 []) =
      .ok ⟨some 5, some "X"⟩ ∧
    ma_update (fun _ => (2, "C")) (fun _ => ("", "C")) (fun _ => none)
      "temperature" "maximum" ⟨some 5, some "X"⟩
      (.response 200 [⟨["Temperature"], []⟩]) = .ok ⟨some 0, some ""⟩ :=
  C4_soft_state _ _ _ "temperature" "maximum" "Temperature" ⟨some 5, some "X"⟩
    ⟨["Temperature"], []⟩ rfl (by decide) rfl

/-! ### Claim C5: empty readings give the `(0, "")` sentinel -/

/-- C5: with the table present and the device class's column found but the
column body empty, the aggregation step returns the sentinel `0` with the
empty unit string and does not raise. -/
theorem C5_empty_sentinel (ess : String → ℕ × String)
    (evu : String → String × String) (pyfloat : String → Option ℚ)
    (dc method cname : String) (tbl : Table)
    (h1 : DEVICE_CLASS.lookup dc = some cname) (h2 : cname ∈ tbl.header)
    (h3 : tbl.body = []) :
    get_reading ess evu pyfloat dc method (.response 200 [tbl]) = .ok (some 0, "") :=
  get_reading_empty_body ess evu pyfloat dc method cname tbl h1 h2 h3

/-- C5 witness at a concrete empty-bodied table. -/
theorem C5_empty_sentinel_witness :
    get_reading (fun _ => (2, "C")) (fun _ => ("", "C")) (fun _ => none)
      "humidity" "mean" (.response 200 [⟨["Time", "Humidity"], []⟩]) =
      .ok (some 0, "") :=
  C5_empty_sentinel _ _ _ "humidity" "mean" "Humidity" ⟨["Time", "Humidity"], []⟩
    rfl (by decide) rfl

/-! ### Claim C6: the URL builder's epoch window -/

/-- C6: for every device id, duration and reference time at least
`duration` hours past the epoch, `toepoch` and `fromepoch` are integer
epoch seconds exactly `duration * 3600` apart, and the produced GET URL is
the fixed vendor/app identifiers, the device id and that window. -/
theorem C6_url_window (device_id : String) (duration : ℕ) (now : ℚ)
    (h : (duration : ℚ) * 3600 ≤ now) :
    toepoch now - fromepoch now duration = (duration : ℤ) * 3600 ∧
    get_device_history_url device_id duration now =
      "https://measurements.mobile-alerts.eu/Home/MeasurementDetails" ++ "?" ++
        "vendorid=bb8e868c-e5fd-4130-8d72-b08d1013c98e" ++ "&" ++
        "appbundle=eu.mobile_alerts.mobilealerts" ++ "&" ++
        "deviceid=" ++ device_id ++ "&" ++
        "fromepoch=" ++ toString (fromepoch now duration) ++ "&" ++
        "toepoch=" ++ toString (toepoch now) := by
  constructor
  · have h0 : (0:ℚ) ≤ now := le_trans (by positivity) h
    have h1 : (0:ℚ) ≤ now - (duration * 60 * 60 : ℕ) := by
      push_cast
      linarith
    rw [toepoch, fromepoch, pyInt_of_nonneg h0, pyInt_of_nonneg h1]
    rw [show ((duration * 60 * 60 : ℕ) : ℚ) = (((duration * 60 * 60 : ℕ) : ℤ) : ℚ) by
      push_cast; ring]
    rw [Int.floor_sub_int]
    push_cast
    ring
  · rfl

/-- C6 witness: duration 24 h ending at epoch second 1700000000.5. -/
theorem C6_url_window_witness :
    toepoch (1700000000 + 1/2) - fromepoch (1700000000 + 1/2) 24 = (24 : ℤ) * 3600 ∧
    get_device_history_url "XX11223344" 24 (1700000000 + 1/2) =
      "https://measurements.mobile-alerts.eu/Home/MeasurementDetails" ++ "?" ++
        "vendorid=bb8e868c-e5fd-4130-8d72-b08d1013c98e" ++ "&" ++
        "appbundle=eu.mobile_alerts.mobilealerts" ++ "&" ++
        "deviceid=" ++ "XX11223344" ++ "&" ++
        "fromepoch=" ++ toString (fromepoch (1700000000 + 1/2) 24) ++ "&" ++
        "toepoch=" ++ toString (toepoch (1700000000 + 1/2)) :=
  C6_url_window "XX11223344" 24 (1700000000 + 1/2) (by norm_num)

/-! ### Claim C7: the column locator -/

lemma join_comma_singleton (s : String) : join_comma [s] = s := by
  simp [join_comma]

lemma join_comma_cons_cons (s a : String) (t : List String) :
    join_comma (s :: a :: t) = s ++ ", " ++ join_comma (a :: t) := by
  simp [join_comma]

lemma join_comma_mem (xs : List String) (s : String) (h : s ∈ xs) :
    ∃ pre post : String,
      join_comma (xs.map (fun t => "\x27" ++ t ++ "\x27")) = pre ++ s ++ post := by
  induction xs with
  | nil => simp at h
  | cons x xs ih =>
    rcases List.mem_cons.mp h with rfl | hmem
    · cases xs with
      | nil =>
        refine ⟨"\x27", "\x27", ?_⟩
        simp only [List.map_cons, List.map_nil, join_comma_singleton]
      | cons y ys =>
        refine ⟨"\x27", "\x27" ++ ", " ++
          join_comma ((y :: ys).map (fun t => "\x27" ++ t ++ "\x27")), ?_⟩
        simp only [List.map_cons]
        rw [join_comma_cons_cons]
        simp [String.append_assoc]
    · cases xs with
      | nil => simp at hmem
      | cons y ys =>
        obtain ⟨pre, post, hp⟩ := ih hmem
        refine ⟨("\x27" ++ x ++ "\x27") ++ ", " ++ pre, post, ?_⟩
        simp only [List.map_cons]
        rw [join_comma_cons_cons]
        simp only [List.map_cons] at hp
        rw [hp]
        simp [String.append_assoc]

/-- Every member of the list occurs verbatim inside its Python `str(list)`
rendering. -/
lemma pyStrList_mem (xs : List String) (s : String) (h : s ∈ xs) :
    ∃ pre post : String, pyStrList xs = pre ++ s ++ post := by
  obtain ⟨pre, post, hp⟩ := join_comma_mem xs s h
  refine ⟨"[" ++ pre, post ++ "]", ?_⟩
  rw [pyStrList, hp]
  simp [String.append_assoc]

/-- C7: the locator returns the index of the first exact header match, and
on a miss raises the "column not found" error whose message embeds every
available header name. -/
theorem C7_column_locator (headers : List String) (target : String) :
    (target ∈ headers →
      ∃ i, get_position headers target = .ok i ∧ headers.get? i = some target ∧
        ∀ j, j < i → headers.get? j ≠ some target) ∧
    (target ∉ headers →
      get_position headers target =
        .error ("Column " ++ target ++ " not found in sensor data " ++
          pyStrList headers) ∧
      ∀ s ∈ headers, ∃ pre post : String, pyStrList headers = pre ++ s ++ post) := by
  constructor
  · intro hmem
    obtain ⟨i, hi⟩ := list_index_of_mem hmem
    obtain ⟨h1, h2⟩ := list_index_spec headers target i hi
    exact ⟨i, by simp [get_position, hi], h1, h2⟩
  · intro hmem
    have hn : list_index headers target = none :=
      (list_index_eq_none_iff _ _).mpr hmem
    exact ⟨by simp [get_position, hn], fun s hs => pyStrList_mem headers s hs⟩

/-- C7 witness: "Temperature" is found at index 1 in
["Time", "Temperature", "Humidity"]; "Pressure" raises the enumerating
error. -/
theorem C7_column_locator_witness :
    get_position ["Time", "Temperature", "Humidity"] "Temperature" = .ok 1 ∧
    (∃ i, get_position ["Time", "Temperature", "Humidity"] "Temperature" = .ok i ∧
      ["Time", "Temperature", "Humidity"].get? i = some "Temperature" ∧
      ∀ j, j < i → ["Time", "Temperature", "Humidity"].get? j ≠ some "Temperature") ∧
    (get_position ["Time", "Temperature", "Humidity"] "Pressure" =
      .error ("Column " ++ "Pressure" ++ " not found in sensor data " ++
        pyStrList ["Time", "Temperature", "Humidity"]) ∧
    ∀ s ∈ ["Time", "Temperature", "Humidity"], ∃ pre post : String,
      pyStrList ["Time", "Temperature", "Humidity"] = pre ++ s ++ post) :=
  ⟨rfl,
   (C7_column_locator ["Time", "Temperature", "Humidity"] "Temperature").1 (by decide),
   (C7_column_locator ["Time", "Temperature", "Humidity"] "Pressure").2 (by decide)⟩

/-! ### Claim C8: round-trip of the row value extractor -/

/-- Python `(r + suf)[:-n]` recovers `r` when `suf` has exactly `n ≥ 1`
characters. -/
lemma pySliceToNeg_append (r suf : String) (n : ℕ) (h0 : 0 < n)
    (hlen : suf.length = n) :
    pySliceToNeg (r ++ suf) n = r := by
  rw [pySliceToNeg, if_neg (Nat.pos_iff_ne_zero.mp h0)]
  have hd : (r ++ suf).data = r.data ++ suf.data := String.data_append r suf
  have hlen' : suf.data.length = n := hlen
  rw [hd, List.length_append, hlen', Nat.add_sub_cancel, List.take_left]

lemma mapM_strip (pyfloat : String → Option ℚ) (n : ℕ) (h0 : 0 < n)
    (raws : List String) :
    ∀ (sufs : List String) (vs : List ℚ),
      raws.length = sufs.length →
      List.Forall₂ (fun r v => pyfloat r = some v) raws vs →
      (∀ s ∈ sufs, s.length = n) →
      (List.zipWith (· ++ ·) raws sufs).mapM
        (fun s => pyfloat (pySliceToNeg s n)) = some vs := by
  induction raws with
  | nil =>
    intro sufs vs _ hf _
    cases hf
    rfl
  | cons r rs ih =>
    intro sufs vs hlen hf hsuf
    cases hf with
    | cons hr hrest =>
      cases sufs with
      | nil => simp at hlen
      | cons s ss =>
        have hs : s.length = n := hsuf s (by simp)
        have hrec := ih ss _ (by simpa using hlen) hrest
          (fun x hx => hsuf x (by simp [hx]))
        simp only [List.zipWith_cons_cons, List.mapM_cons,
          pySliceToNeg_append r s n h0 hs, hr, hrec]
        rfl

/-- C8: when the column's decorated cells split into a numeric part plus a
unit suffix of consistent width `n ≥ 1` (the width reported by the
black-box parser on the first cell), the extractor strips the suffix from
every row, re-parses, and reproduces the original series in row order,
paired with the unit label taken from the first cell; an empty table body
yields `([], "")`. -/
theorem C8_extractor_roundtrip (ess : String → ℕ × String)
    (evu : String → String × String) (pyfloat : String → Option ℚ)
    (tbl : Table) (target : String) (col n : ℕ)
    (raws sufs : List String) (vs : List ℚ)
    (hcol : get_position tbl.header target = .ok col)
    (hcells : tbl.body.mapM (fun row => row.get? col) =
      some (List.zipWith (· ++ ·) raws sufs))
    (hne : raws ≠ [])
    (hlen : raws.length = sufs.length)
    (hparse : List.Forall₂ (fun r v => pyfloat r = some v) raws vs)
    (hsuf : ∀ s ∈ sufs, s.length = n)
    (hn : (ess ((List.zipWith (· ++ ·) raws sufs).headD "")).1 = n)
    (h0 : 0 < n) :
    get_measurements ess evu pyfloat tbl target =
      .ok (vs, (evu ((List.zipWith (· ++ ·) raws sufs).headD "")).2) ∧
    ∀ tbl2 : Table, target ∈ tbl2.header → tbl2.body = [] →
      get_measurements ess evu pyfloat tbl2 target = .ok ([], "") := by
  constructor
  · have hmapM := mapM_strip pyfloat n h0 raws sufs vs hlen hparse hsuf
    cases raws with
    | nil => exact absurd rfl hne
    | cons r rs =>
      cases sufs with
      | nil => simp at hlen
      | cons s ss =>
        simp only [List.zipWith_cons_cons, List.headD_cons] at hmapM hcells hn ⊢
        simp only [get_measurements, hcol, hcells, hn, hmapM]
  · intro tbl2 hmem hbody
    obtain ⟨i, hi⟩ := list_index_of_mem hmem
    simp [get_measurements, get_position, hi, hbody]
    rfl

/-- C8 witness: two rows `12.3°C`, `45.6°C`; stripping the 2-character
suffix reproduces [12.3, 45.6] with unit `°C`. -/
theorem C8_extractor_roundtrip_witness :
    get_measurements (fun _ => (2, "°C"))
      (fun _ => ("12.3", "°C"))
      (fun s => if s = "12.3" then some (123/10)
        else if s = "45.6" then some (456/10) else none)
      ⟨["Temperature"], [["12.3°C"], ["45.6°C"]]⟩ "Temperature" =
      .ok ([123/10, 456/10],
        ((fun (_ : String) => ("12.3", "°C"))
          ((List.zipWith (· ++ ·) ["12.3", "45.6"] ["°C", "°C"]).headD "")).2) ∧
    ∀ tbl2 : Table, "Temperature" ∈ tbl2.header → tbl2.body = [] →
      get_measurements (fun _ => (2, "°C"))
        (fun _ => ("12.3", "°C"))
        (fun s => if s = "12.3" then some (123/10)
          else if s = "45.6" then some (456/10) else none)
        tbl2 "Temperature" = .ok ([], "") :=
  C8_extractor_roundtrip (fun _ => (2, "°C")) (fun _ => ("12.3", "°C"))
    (fun s => if s = "12.3" then some (123/10)
      else if s = "45.6" then some (456/10) else none)
    ⟨["Temperature"], [["12.3°C"], ["45.6°C"]]⟩ "Temperature" 0 2
    ["12.3", "45.6"] ["°C", "°C"] [123/10, 456/10]
    rfl (by decide) (by decide) rfl
    (List.Forall₂.cons (by simp)
      (List.Forall₂.cons (by simp) List.Forall₂.nil))
    (by decide) rfl (by decide)

/-! ### Claim C9: the hourly throttle -/

/-- C9: starting from a fresh fetcher the first invocation runs the body
(issues the request) and records its time; a second invocation within
`MIN_TIME_BETWEEN_UPDATES` (one hour) skips the body and leaves the
recorded time unchanged, while an invocation at or after the window issues
a new request and records the new time. -/
theorem C9_throttle (t0 t1 t2 : ℚ)
    (h1 : t1 - t0 < MIN_TIME_BETWEEN_UPDATES)
    (h2 : MIN_TIME_BETWEEN_UPDATES ≤ t2 - t0) :
    throttle_step MIN_TIME_BETWEEN_UPDATES none t0 = (true, some t0) ∧
    throttle_step MIN_TIME_BETWEEN_UPDATES (some t0) t1 = (false, some t0) ∧
    throttle_step MIN_TIME_BETWEEN_UPDATES (some t0) t2 = (true, some t2) := by
  refine ⟨rfl, ?_, ?_⟩
  · simp [throttle_step, h1]
  · simp [throttle_step, not_lt.mpr h2]

/-- C9 witness: invocations at t = 0, 1800 (skipped) and 3600 (runs). -/
theorem C9_throttle_witness :
    throttle_step MIN_TIME_BETWEEN_UPDATES none 0 = (true, some 0) ∧
    throttle_step MIN_TIME_BETWEEN_UPDATES (some 0) 1800 = (false, some 0) ∧
    throttle_step MIN_TIME_BETWEEN_UPDATES (some 0) 3600 = (true, some 3600) :=
  C9_throttle 0 1800 3600 (by norm_num [MIN_TIME_BETWEEN_UPDATES])
    (by norm_num [MIN_TIME_BETWEEN_UPDATES])

/-! ### Claim C10: the accepted `mode` option never influences setup -/

/-- C10: setup branches on `device_id != ""` alone.  Two valid
configurations differing only in the accepted `mode` option produce
identical entity setups; a non-empty device id always yields the single
historic entity, and an empty device id only ever yields current-mode
entities (with update-before-add `False`). -/
theorem C10_mode_noninterference (states : String → Option Unit) (c : Config)
    (m1 m2 : String) (_hm1 : m1 ∈ MODE_TYPES) (_hm2 : m2 ∈ MODE_TYPES) :
    async_setup_platform states { c with mode := m1 } =
      async_setup_platform states { c with mode := m2 } ∧
    (c.device_id ≠ "" →
      async_setup_platform states { c with mode := m1 } =
        .ok [.historic c.name c.device_id c.device_class c.method c.duration true]) ∧
    (c.device_id = "" →
      ∀ l, async_setup_platform states { c with mode := m1 } = .ok l →
        ∀ e ∈ l, ∃ nm dc w, e = .current nm dc w false) := by
  refine ⟨rfl, ?_, ?_⟩
  · intro h
    simp [async_setup_platform, h]
  · intro h l hl e he
    simp only [async_setup_platform, h, ne_eq, not_true_eq_false, if_false] at hl
    cases hw : c.weather with
    | none => simp [hw] at hl
    | some w =>
      simp only [hw] at hl
      cases hsw : states w with
      | none => simp [hsw] at hl
      | some u =>
        simp only [hsw, Except.ok.injEq] at hl
        subst hl
        obtain ⟨dc, _, rfl⟩ := List.mem_map.mp he
        exact ⟨c.name.toLower ++ "_" ++ dc, dc, w, rfl⟩

/-- C10 witness: a historic-selecting configuration (non-empty device id)
under both accepted mode values. -/
theorem C10_mode_noninterference_witness :
    (async_setup_platform (fun _ => some ())
      { name := "ma", device_class := some "temperature", device_id := "X123",
        mode := "historic", devices := [], method := some "maximum",
        duration := 24, weather := none } =
     async_setup_platform (fun _ => some ())
      { name := "ma", device_class := some "temperature", device_id := "X123",
        mode := "current", devices := [], method := some "maximum",
        duration := 24, weather := none }) ∧
    ("X123" ≠ "" →
      async_setup_platform (fun _ => some ())
        { name := "ma", device_class := some "temperature", device_id := "X123",
          mode := "historic", devices := [], method := some "maximum",
          duration := 24, weather := none } =
        .ok [.historic "ma" "X123" (some "temperature") (some "maximum") 24 true]) ∧
    ("X123" = "" →
      ∀ l, async_setup_platform (fun _ => some ())
        { name := "ma", device_class := some "temperature", device_id := "X123",
          mode := "historic", devices := [], method := some "maximum",
          duration := 24, weather := none } = .ok l →
        ∀ e ∈ l, ∃ nm dc w, e = .current nm dc w false) :=
  C10_mode_noninterference (fun _ => some ())
    { name := "ma", device_class := some "temperature", device_id := "X123",
      mode := "", devices := [], method := some "maximum",
      duration := 24, weather := none }
    "historic" "current" (by decide) (by decide)

end MobileAlerts
